import Mathlib

/-!
Shallow embedding of `pheuter/claude-agent-desktop` (TypeScript/Electron) for
checking the natural-language specification against the code.

Conventions:
* JavaScript numbers holding epoch milliseconds are modelled as `Nat`.
* Network interactions (`fetch` against the OAuth token endpoint, IPC round
  trips to the main process, `File.arrayBuffer`) are modelled as explicit
  oracle functions passed to the embedded operation; a `none` / `Except.error`
  result models the source's `null`-return or thrown-rejection branch.
* The persisted app config (`loadConfig` / `saveConfig` in
  `src/main/lib/config.ts`) is threaded as an explicit `AppConfig` value:
  each embedded operation takes the stored config and returns the
  (possibly updated) stored config.
-/

/-- `OAuthTokens` from `src/main/lib/oauth.ts` (the `type: 'oauth'` literal tag
is omitted; it is constant on every record). `expires` is epoch milliseconds. -/
structure OAuthTokens where
  refresh : String
  access : String
  expires : Nat
deriving DecidableEq

/-- The persisted flat key/value app config (`AppConfig` in
`src/main/lib/config.ts`, layout per spec §6: `workspaceDir`, `debugMode`,
`apiKey`, `anthropicBaseUrl`, `oauthTokens`). -/
structure AppConfig where
  workspaceDir : Option String
  debugMode : Bool
  apiKey : Option String
  anthropicBaseUrl : Option String
  oauthTokens : Option OAuthTokens
deriving DecidableEq

/-- `getOAuthTokens` from `src/main/lib/oauth.ts`: `config.oauthTokens || null`. -/
def getOAuthTokens (cfg : AppConfig) : Option OAuthTokens :=
  cfg.oauthTokens

/-- `saveOAuthTokens` from `src/main/lib/oauth.ts`: loads the config, sets
`config.oauthTokens = tokens`, saves it back. -/
def saveOAuthTokens (tokens : OAuthTokens) (cfg : AppConfig) : AppConfig :=
  { cfg with oauthTokens := some tokens }

/-- `clearOAuthTokens` from `src/main/lib/oauth.ts`: `delete config.oauthTokens`. -/
def clearOAuthTokens (cfg : AppConfig) : AppConfig :=
  { cfg with oauthTokens := none }

/-- `isTokenExpired` from `src/main/lib/oauth.ts`:
`tokens.expires < Date.now() + fiveMinutes` with `fiveMinutes = 5 * 60 * 1000`.
`now` models `Date.now()`. -/
def isTokenExpired (now : Nat) (tokens : OAuthTokens) : Bool :=
  tokens.expires < now + 5 * 60 * 1000

/-- Result of one `getValidAccessToken` call: the returned bearer token
(`none` models the source's `null`), the stored config after the call, and an
instrumentation flag recording whether the call issued a network request to
the token endpoint (`refreshAccessToken`). -/
structure TokenFetchResult where
  token : Option String
  config : AppConfig
  refreshAttempted : Bool
deriving DecidableEq

/-- `getValidAccessToken` from `src/main/lib/oauth.ts`. `refresh` is the
network oracle modelling `refreshAccessToken`: given the stored refresh token
it returns the new token record on an HTTP-ok response and `none` when the
endpoint rejects the request or the request errors (the source catches both
and returns `null`). On a failed refresh the source logs and returns `null`
without calling `saveOAuthTokens`; only a successful refresh stores the new
pair. -/
def getValidAccessToken (refresh : String → Option OAuthTokens) (now : Nat)
    (cfg : AppConfig) : TokenFetchResult :=
  match getOAuthTokens cfg with
  | none => ⟨none, cfg, false⟩
  | some tokens =>
    if isTokenExpired now tokens then
      match refresh tokens.refresh with
      | none => ⟨none, cfg, true⟩
      | some newTokens => ⟨some newTokens.access, saveOAuthTokens newTokens cfg, true⟩
    else ⟨some tokens.access, cfg, false⟩

/-- Response shape of the `oauth:get-status` IPC handler. -/
structure OAuthStatusResponse where
  authenticated : Bool
  expiresAt : Option Nat
deriving DecidableEq

/-- JavaScript `n || null` on a number: `0` is falsy, so a zero value is
replaced by `null`. -/
def jsNumOrNull (n : Nat) : Option Nat :=
  if n = 0 then none else some n

/-- The `oauth:get-status` handler from `src/main/handlers/oauth-handlers.ts`:
`{ authenticated: !!tokens, expiresAt: tokens?.expires || null }`. -/
def oauthGetStatus (cfg : AppConfig) : OAuthStatusResponse :=
  match getOAuthTokens cfg with
  | none => ⟨false, none⟩
  | some tokens => ⟨true, jsNumOrNull tokens.expires⟩

/-- Example token record whose expiry is at epoch 0 (long past). -/
def staleTokens : OAuthTokens :=
  ⟨"refresh-stale", "access-stale", 0⟩

/-- Example stored config holding `staleTokens`. -/
def staleCfg : AppConfig :=
  ⟨none, false, none, none, some staleTokens⟩

/-- Example token record expiring far in the future. -/
def freshTokens : OAuthTokens :=
  ⟨"refresh-fresh", "access-fresh", 10 ^ 15⟩

/-- Example stored config holding `freshTokens`. -/
def freshCfg : AppConfig :=
  ⟨none, false, none, none, some freshTokens⟩

/-- Example stored config holding no OAuth tokens. -/
def emptyCfg : AppConfig :=
  ⟨none, false, none, none, none⟩

/-- A refresh oracle for which every refresh attempt fails (the token endpoint
rejects the request or the request errors). -/
def failingRefresh : String → Option OAuthTokens :=
  fun _ => none

/-- `CLIENT_ID` constant from `src/main/lib/oauth.ts`. -/
def CLIENT_ID : String := "9d1c250a-e61b-44d9-88ed-5944d1962f5e"

/-- `AUTHORIZATION_ENDPOINT_MAX` constant from `src/main/lib/oauth.ts`. -/
def AUTHORIZATION_ENDPOINT_MAX : String := "https://claude.ai/oauth/authorize"

/-- `AUTHORIZATION_ENDPOINT_CONSOLE` constant from `src/main/lib/oauth.ts`. -/
def AUTHORIZATION_ENDPOINT_CONSOLE : String :=
  "https://console.anthropic.com/oauth/authorize"

/-- `REDIRECT_URI` constant from `src/main/lib/oauth.ts`. -/
def REDIRECT_URI : String := "https://console.anthropic.com/oauth/code/callback"

/-- `SCOPES` constant from `src/main/lib/oauth.ts`. -/
def SCOPES : String := "org:create_api_key user:profile user:inference"

/-- `PKCEChallenge` from `src/main/lib/oauth.ts`; the pair is produced by the
external `generatePKCE()` library call, so both fields are opaque strings
here. -/
structure PKCEChallenge where
  challenge : String
  verifier : String
deriving DecidableEq

/-- `AuthMode` from `src/main/lib/oauth.ts`: `'max' | 'console'`. -/
inductive AuthMode where
  | max : AuthMode
  | console : AuthMode
deriving DecidableEq

/-- Hexadecimal digit character (uppercase), as used by WHATWG
percent-encoding. -/
def hexDigitChar (n : Nat) : Char :=
  if n < 10 then Char.ofNat (48 + n) else Char.ofNat (55 + n)

/-- UTF-8 byte sequence of a Unicode code point. -/
def utf8Bytes (n : Nat) : List Nat :=
  if n < 128 then [n]
  else if n < 2048 then [192 + n / 64, 128 + n % 64]
  else if n < 65536 then [224 + n / 4096, 128 + n / 64 % 64, 128 + n % 64]
  else [240 + n / 262144, 128 + n / 4096 % 64, 128 + n / 64 % 64, 128 + n % 64]

/-- Percent-escape of one byte: `%XY` with uppercase hex. -/
def percentByte (b : Nat) : String :=
  String.mk ['%', hexDigitChar (b / 16), hexDigitChar (b % 16)]

/-- Characters left unescaped by the `application/x-www-form-urlencoded`
serializer used by `URLSearchParams` (WHATWG URL standard): ASCII
alphanumerics and `*`, `-`, `.`, `_`. -/
def formSafeChar (c : Char) : Bool :=
  c.isAlphanum || c = '*' || c = '-' || c = '.' || c = '_'

/-- `application/x-www-form-urlencoded` escape of one character: safe
characters pass through, space becomes `+`, everything else is
percent-escaped per UTF-8 byte. -/
def formEncodeChar (c : Char) : String :=
  if formSafeChar c then String.singleton c
  else if c = ' ' then "+"
  else String.join ((utf8Bytes c.toNat).map percentByte)

/-- `application/x-www-form-urlencoded` escape of a character list. -/
def formEncodeList : List Char → String
  | [] => ""
  | c :: cs => formEncodeChar c ++ formEncodeList cs

/-- `application/x-www-form-urlencoded` escape of a string. -/
def formEncode (s : String) : String :=
  formEncodeList s.data

/-- Serialization of a `URLSearchParams` list: `k=v` pairs joined by `&`,
keys and values form-urlencoded (WHATWG URL standard; this is what
`url.toString()` appends after `?` in `getAuthorizationUrl`). -/
def serializeQuery : List (String × String) → String
  | [] => ""
  | [(k, v)] => formEncode k ++ "=" ++ formEncode v
  | (k, v) :: rest => formEncode k ++ "=" ++ formEncode v ++ "&" ++ serializeQuery rest

/-- The query parameters set by `getAuthorizationUrl` in
`src/main/lib/oauth.ts`, in the order of the `url.searchParams.set` calls
(the base URLs carry no query of their own, so serialization order equals
insertion order; `state` is set last). -/
def authorizationParams (pkce : PKCEChallenge) : List (String × String) :=
  [("code", "true"),
   ("client_id", CLIENT_ID),
   ("response_type", "code"),
   ("redirect_uri", REDIRECT_URI),
   ("scope", SCOPES),
   ("code_challenge", pkce.challenge),
   ("code_challenge_method", "S256"),
   ("state", pkce.verifier)]

/-- `getAuthorizationUrl` from `src/main/lib/oauth.ts`: picks the base URL by
mode and appends the serialized search params. -/
def getAuthorizationUrl (mode : AuthMode) (pkce : PKCEChallenge) : String :=
  (match mode with
   | AuthMode.max => AUTHORIZATION_ENDPOINT_MAX
   | AuthMode.console => AUTHORIZATION_ENDPOINT_CONSOLE) ++
    "?" ++ serializeQuery (authorizationParams pkce)

/-- Module-level state of `src/main/handlers/oauth-handlers.ts`: the PKCE
verifier held in process memory for the current login flow
(`currentPKCEVerifier`), together with the persisted config the handlers
read and write. -/
structure OAuthFlowState where
  currentPKCEVerifier : Option String
  config : AppConfig
deriving DecidableEq

/-- Tagged result of the `oauth:complete-login` handler. -/
inductive CompleteLoginResult where
  | failure : String → CompleteLoginResult
  | successOAuth : CompleteLoginResult
  | successApiKey : String → CompleteLoginResult
deriving DecidableEq

/-- The `oauth:start-login` handler: generates a PKCE pair (modelled as the
`pkce` argument, produced by the external `generatePKCE()`), stores its
verifier in `currentPKCEVerifier`, and opens the authorization URL in the
external browser. Returns the URL it opened. -/
def startLoginHandler (mode : AuthMode) (pkce : PKCEChallenge)
    (st : OAuthFlowState) : OAuthFlowState × String :=
  ({ st with currentPKCEVerifier := some pkce.verifier },
   getAuthorizationUrl mode pkce)

/-- The `oauth:complete-login` handler from
`src/main/handlers/oauth-handlers.ts`. `exchange code verifier` is the
network oracle modelling `exchangeCodeForTokens` (`none` models the source's
`null` return on a rejected or errored exchange); `createKeyOracle access` is
the network oracle modelling `createApiKey`. Branches, as in the source:
no active flow → failure; exchange fails → failure (verifier untouched);
`createKey` and key creation fails → failure (verifier untouched);
`createKey` and key created → verifier cleared, config untouched;
otherwise → tokens saved to config, verifier cleared. -/
def completeLoginHandler (exchange : String → String → Option OAuthTokens)
    (createKeyOracle : String → Option String) (code : String)
    (createKey : Bool) (st : OAuthFlowState) :
    OAuthFlowState × CompleteLoginResult :=
  match st.currentPKCEVerifier with
  | none => (st, CompleteLoginResult.failure
      "No active OAuth flow. Please start the login process again.")
  | some verifier =>
    match exchange code verifier with
    | none => (st, CompleteLoginResult.failure
        "Failed to exchange authorization code for tokens")
    | some tokens =>
      if createKey then
        match createKeyOracle tokens.access with
        | none => (st, CompleteLoginResult.failure "Failed to create API key")
        | some apiKey =>
          ({ st with currentPKCEVerifier := none },
           CompleteLoginResult.successApiKey apiKey)
      else
        ({ currentPKCEVerifier := none,
           config := saveOAuthTokens tokens st.config },
         CompleteLoginResult.successOAuth)

/-- The `oauth:cancel` handler: `currentPKCEVerifier = null`. -/
def cancelHandler (st : OAuthFlowState) : OAuthFlowState :=
  { st with currentPKCEVerifier := none }

/-- The `oauth:logout` handler: clears the stored OAuth tokens. -/
def logoutHandler (st : OAuthFlowState) : OAuthFlowState :=
  { st with config := clearOAuthTokens st.config }

/-- Example flow state: a login flow is active with verifier `"verifier-1"`
and nothing stored in the config. -/
def flowStateEx : OAuthFlowState :=
  ⟨some "verifier-1", emptyCfg⟩

/-- An exchange oracle for which every code exchange fails (the token
endpoint rejects the authorization code). -/
def failingExchange : String → String → Option OAuthTokens :=
  fun _ _ => none

/-- A create-api-key oracle for which every key creation fails. -/
def failingCreateKey : String → Option String :=
  fun _ => none

/-- Test whether `pattern` is an initial segment of `s` (character lists);
models JavaScript `String.prototype.startsWith`. -/
def leadsWith : List Char → List Char → Bool
  | [], _ => true
  | _ :: _, [] => false
  | a :: pa, b :: sb => a == b && leadsWith pa sb

/-- Test whether `pattern` occurs contiguously in `s` (character lists). -/
def occursIn (pattern : List Char) : List Char → Bool
  | [] => leadsWith pattern []
  | c :: rest => leadsWith pattern (c :: rest) || occursIn pattern rest

/-- JavaScript `String.prototype.split` with a one-character separator, on
character lists: always returns at least one (possibly empty) piece. -/
def jsSplitChar (sep : Char) : List Char → List (List Char)
  | [] => [[]]
  | c :: rest =>
    match jsSplitChar sep rest with
    | [] => [[]]
    | h :: t => if c == sep then [] :: h :: t else (c :: h) :: t

/-- JavaScript `String.prototype.trim`: strips leading and trailing
whitespace. -/
def jsTrim (s : String) : String :=
  String.mk
    (((s.data.dropWhile Char.isWhitespace).reverse.dropWhile
      Char.isWhitespace).reverse)

/-- The process environment slice relevant to credential status:
`ANTHROPIC_API_KEY` and `ANTHROPIC_BASE_URL`. `none` models an unset
variable. -/
structure ProcessEnv where
  anthropicApiKey : Option String
  anthropicBaseUrl : Option String
deriving DecidableEq

/-- Origin of a configured credential as reported to the UI: `'env' | 'local'`
in the source (`ApiKeyStatus.source` in `src/renderer/pages/Settings.tsx`). -/
inductive KeySource where
  | fromEnv : KeySource
  | fromLocal : KeySource
deriving DecidableEq

/-- `ApiKeyStatus` as consumed by `src/renderer/pages/Settings.tsx`:
`{ configured: boolean, source: 'env' | 'local' | null, lastFour: string | null }`. -/
structure ApiKeyStatus where
  configured : Bool
  source : Option KeySource
  lastFour : Option String
deriving DecidableEq

/-- Last four characters of a string (for status display). -/
def lastFourOf (s : String) : String :=
  String.mk (s.data.drop (s.data.length - 4))

/-- Modelled from the spec: `setApiKey` lives in `src/main/lib/config.ts`,
which is not in the source tree; per spec §6 the config is a flat key/value
document with an `apiKey` key, so storing sets that key (a `null` argument
clears it). -/
def setApiKey (apiKey : Option String) (cfg : AppConfig) : AppConfig :=
  { cfg with apiKey := apiKey }

/-- Modelled from the spec: `getApiKeyStatus` lives in
`src/main/lib/config.ts`, which is not in the source tree. Per spec §4.2/§6,
`ANTHROPIC_API_KEY` in the environment always overrides the locally stored
value and is reported as source `'env'`; otherwise a stored key is reported
as source `'local'`; otherwise the status is unconfigured with a null
source. `lastFour` mirrors the tail of the active key as displayed by
`Settings.tsx`. -/
def getApiKeyStatus (env : ProcessEnv) (cfg : AppConfig) : ApiKeyStatus :=
  match env.anthropicApiKey with
  | some key => ⟨true, some KeySource.fromEnv, some (lastFourOf key)⟩
  | none =>
    match cfg.apiKey with
    | some key => ⟨true, some KeySource.fromLocal, some (lastFourOf key)⟩
    | none => ⟨false, none, none⟩

/-- JavaScript `apiKey?.trim() || null` from the `config:set-api-key` handler
in `src/main/handlers/oauth-handlers.ts`: a missing/null argument stays null,
and a trimmed-to-empty string is normalized to null (empty string is falsy). -/
def normalizeApiKeyArg (apiKey : Option String) : Option String :=
  match apiKey with
  | none => none
  | some s => if jsTrim s = "" then none else some (jsTrim s)

/-- The `config:set-api-key` IPC handler from
`src/main/handlers/oauth-handlers.ts`: normalizes the argument, stores it via
`setApiKey`, and returns `{ success: true, status: getApiKeyStatus() }`. -/
def setApiKeyHandler (env : ProcessEnv) (apiKey : Option String)
    (cfg : AppConfig) : AppConfig × ApiKeyStatus :=
  let cfg' := setApiKey (normalizeApiKeyArg apiKey) cfg
  (cfg', getApiKeyStatus env cfg')

/-- An environment with neither override variable set. -/
def emptyEnv : ProcessEnv := ⟨none, none⟩

/-- An environment in which `ANTHROPIC_API_KEY` is set. -/
def envWithKey : ProcessEnv := ⟨some "sk-ant-env-override", none⟩

/-- The fields of a browser `File` object the chat page reads: `name`,
`size` (bytes) and `type` (MIME type; named `mimeType` here because `type` is
reserved in Lean). -/
structure FileDesc where
  name : String
  size : Nat
  mimeType : String
deriving DecidableEq

/-- `IMAGE_FILE_EXTENSIONS` from the chat page (`Chat.tsx`). -/
def IMAGE_FILE_EXTENSIONS : List String :=
  ["png", "apng", "avif", "gif", "jpg", "jpeg", "jfif", "pjpeg", "pjp",
   "svg", "webp", "bmp", "ico", "cur", "heic", "heif", "tif", "tiff"]

/-- `isLikelyImageFile` from `Chat.tsx`: MIME type starting with `image/`, or
file-name extension (last `.`-separated segment, lowercased) in the known
set. -/
def isLikelyImageFile (f : FileDesc) : Bool :=
  leadsWith "image/".data f.mimeType.data ||
    IMAGE_FILE_EXTENSIONS.contains
      (String.mk (((jsSplitChar '.' f.name.data).getLast?.getD []).map
        Char.toLower))

/-- `PendingAttachment` from `Chat.tsx`. The `id` field
(`crypto.randomUUID()`, used only as a React list key and for removal) is
omitted as external nondeterminism. -/
structure PendingAttachment where
  file : FileDesc
  previewUrl : Option String
  previewIsBlobUrl : Bool
  isImage : Bool
deriving DecidableEq

/-- `WORKSPACE_FALLBACK_LABEL` from `Chat.tsx`. -/
def WORKSPACE_FALLBACK_LABEL : String :=
  "the configured claude-agent workspace directory"

/-- The rejection message built in `handleFilesSelected` for an oversized
file: it quotes the file name, states the limit in whole megabytes
(`MAX_ATTACHMENT_SIZE_MB = Math.floor(MAX_ATTACHMENT_BYTES / 2^20)`), and
redirects the user to drop the file into the workspace directory
(`workspaceDir ?? WORKSPACE_FALLBACK_LABEL`). `maxBytes` stands for
`MAX_ATTACHMENT_BYTES`, imported from `shared/constants`. -/
def rejectionMessageFor (maxBytes : Nat) (workspaceDir : Option String)
    (f : FileDesc) : String :=
  "\"" ++ f.name ++ "\" is larger than " ++ toString (maxBytes / (1024 * 1024)) ++
    " MB. Please drop it directly into the Claude Agent workspace at " ++
    workspaceDir.getD WORKSPACE_FALLBACK_LABEL ++ "."

/-- Constructs the `PendingAttachment` pushed onto `accepted` in
`processFiles`: image files get a preview from `createImagePreview`
(modelled by the `preview` oracle returning `url` and `isBlob`, `none` on
failure); the preview is kept only when its `url` is truthy. -/
def mkPendingAttachment (preview : FileDesc → Option (String × Bool))
    (f : FileDesc) : PendingAttachment :=
  let isImage := isLikelyImageFile f
  match (if isImage then preview f else none) with
  | some (url, isBlob) =>
    if url = "" then ⟨f, none, false, isImage⟩ else ⟨f, some url, isBlob, isImage⟩
  | none => ⟨f, none, false, isImage⟩

/-- The `processFiles` loop inside `handleFilesSelected` in `Chat.tsx`:
walks the selected files in order; a file larger than `maxBytes`
(`MAX_ATTACHMENT_BYTES`) is skipped and overwrites `rejectionMessage`
(so the message of the last oversized file wins); every other file is
appended to `accepted`. Returns `(accepted, rejectionMessage)`. -/
def processFiles (maxBytes : Nat) (preview : FileDesc → Option (String × Bool))
    (workspaceDir : Option String) :
    List FileDesc → List PendingAttachment × Option String
  | [] => ([], none)
  | f :: rest =>
    let done := processFiles maxBytes preview workspaceDir rest
    if maxBytes < f.size then
      (done.1,
       match done.2 with
       | some m => some m
       | none => some (rejectionMessageFor maxBytes workspaceDir f))
    else (mkPendingAttachment preview f :: done.1, done.2)

/-- `handleFilesSelected` from `Chat.tsx`, acting on the
`(pendingAttachments, attachmentError)` part of the page state: an empty
selection is a no-op; otherwise accepted files are appended to the pending
list (`setPendingAttachments` is only called when `accepted` is nonempty,
which appends the same value either way), and `attachmentError` is set to
the rejection message if one was produced, cleared if files were accepted
with no rejection, and left alone otherwise. -/
def handleFilesSelected (maxBytes : Nat)
    (preview : FileDesc → Option (String × Bool))
    (workspaceDir : Option String) (files : List FileDesc)
    (pending : List PendingAttachment) (attachmentError : Option String) :
    List PendingAttachment × Option String :=
  if files.length = 0 then (pending, attachmentError)
  else
    let done := processFiles maxBytes preview workspaceDir files
    (pending ++ done.1,
     match done.2 with
     | some m => some m
     | none => if done.1.length > 0 then none else attachmentError)

/-- A preview oracle for which preview generation always fails; attachments
then carry no preview URL. -/
def noPreview : FileDesc → Option (String × Bool) :=
  fun _ => none

/-- `Message.role` from the renderer chat types: `'user' | 'assistant'`. -/
inductive Role where
  | user : Role
  | assistant : Role
deriving DecidableEq

/-- `MessageAttachment` from the renderer chat types as populated by
`handleSendMessage` in `Chat.tsx` (`id`, the copied `PendingAttachment` id,
is omitted as external nondeterminism, matching `PendingAttachment`). -/
structure MessageAttachment where
  name : String
  size : Nat
  mimeType : String
  previewUrl : Option String
  isImage : Bool
  savedPath : Option String
  relativePath : Option String
deriving DecidableEq

/-- `Message` from the renderer chat types; `timestamp` is the epoch-ms value
of the `Date` object. -/
structure Message where
  id : String
  role : Role
  content : String
  timestamp : Nat
  attachments : Option (List MessageAttachment)
deriving DecidableEq

/-- Decimal rendering of `n` left-padded with zeros to width `w`. -/
def padZeros (w n : Nat) : String :=
  String.mk (List.replicate (w - (toString n).length) '0') ++ toString n

/-- Proleptic-Gregorian civil date `(year, month, day)` for a day count since
1970-01-01 (the standard days-from-civil inverse, specialized to nonnegative
day counts). -/
def civilFromDays (z : Nat) : Nat × Nat × Nat :=
  let z' := z + 719468
  let era := z' / 146097
  let doe := z' % 146097
  let yoe := (doe - doe / 1460 + doe / 36524 - doe / 146096) / 365
  let doy := doe - (365 * yoe + yoe / 4 - yoe / 100)
  let mp := (5 * doy + 2) / 153
  let d := doy - (153 * mp + 2) / 5 + 1
  let m := if mp < 10 then mp + 3 else mp - 9
  let y := yoe + era * 400 + (if m ≤ 2 then 1 else 0)
  (y, m, d)

/-- `Date.prototype.toISOString` for a nonnegative epoch-milliseconds value:
`YYYY-MM-DDTHH:mm:ss.sssZ` (UTC). -/
def toISOString (ms : Nat) : String :=
  let days := ms / 86400000
  let rem := ms % 86400000
  let ymd := civilFromDays days
  padZeros 4 ymd.1 ++ "-" ++ padZeros 2 ymd.2.1 ++ "-" ++ padZeros 2 ymd.2.2 ++
    "T" ++ padZeros 2 (rem / 3600000) ++ ":" ++ padZeros 2 (rem % 3600000 / 60000) ++
    ":" ++ padZeros 2 (rem % 60000 / 1000) ++ "." ++ padZeros 3 (rem % 1000) ++ "Z"

/-- `PersistedMessage` from `Chat.tsx`: a `Message` whose `timestamp` is the
ISO string. The spread that drops `previewUrl` from each attachment is
modelled by the field being `none` in the persisted record. -/
structure PersistedMessage where
  id : String
  role : Role
  content : String
  timestamp : String
  attachments : Option (List MessageAttachment)
deriving DecidableEq

/-- `serializeMessagesForStorage` from `Chat.tsx`: strips `previewUrl` from
every attachment and converts each timestamp with `toISOString`. -/
def serializeMessagesForStorage (messages : List Message) : List PersistedMessage :=
  messages.map fun msg =>
    ⟨msg.id, msg.role, msg.content, toISOString msg.timestamp,
     msg.attachments.map (·.map fun a => { a with previewUrl := none })⟩

/-- The debounced auto-save effect in `Chat.tsx`, run over a chronological
trace of message-list mutations `(t, messages)` observed by the effect after
the initial conversation load. On each mutation the previous effect's
cleanup (and the effect body itself) cancels any pending save timer; a new
2000 ms timer is then started unless the message list is empty (the source
skips saving empty conversations). A pending timer fires — producing exactly
one conversation-store write of the serialized list captured at that
mutation — when the next mutation arrives no earlier than 2000 ms later, or
when no further mutation arrives. Returns the chronological list of store
writes as `(fire time, written record)`. -/
def autoSaveRun : List (Nat × List Message) → List (Nat × List PersistedMessage)
  | [] => []
  | (t, msgs) :: rest =>
    let fires := match rest with
      | [] => true
      | (t2, _) :: _ => decide (t + 2000 ≤ t2)
    if msgs.length ≠ 0 ∧ fires = true then
      (t + 2000, serializeMessagesForStorage msgs) :: autoSaveRun rest
    else autoSaveRun rest

/-- `SerializedAttachmentPayload` from `shared/types/ipc.ts`; `data` models
the bytes of the `ArrayBuffer`. -/
structure SerializedAttachmentPayload where
  name : String
  mimeType : String
  size : Nat
  data : List Nat
deriving DecidableEq

/-- `SendMessagePayload` from `shared/types/ipc.ts`. -/
structure SendMessagePayload where
  text : String
  attachments : Option (List SerializedAttachmentPayload)
deriving DecidableEq

/-- `SavedAttachmentInfo` from `shared/types/ipc.ts`. -/
structure SavedAttachmentInfo where
  name : String
  mimeType : String
  size : Nat
  savedPath : String
  relativePath : String
deriving DecidableEq

/-- `SendMessageResponse` from `shared/types/ipc.ts`. -/
structure SendMessageResponse where
  success : Bool
  error : Option String
  attachments : Option (List SavedAttachmentInfo)
deriving DecidableEq

/-- JavaScript truthiness of an optional string: defined and nonempty. -/
def jsStrTruthy (o : Option String) : Bool :=
  match o with
  | some s => s ≠ ""
  | none => false

/-- The part of the `Chat.tsx` component state read and written by
`handleSendMessage`. -/
structure ChatState where
  inputValue : String
  pendingAttachments : List PendingAttachment
  attachmentError : Option String
  messages : List Message
  isLoading : Bool
deriving DecidableEq

/-- The `Promise.all` over `attachment.file.arrayBuffer()` in
`handleSendMessage`: reads every pending attachment into a
`SerializedAttachmentPayload` (MIME type defaulted to
`application/octet-stream` when the file's type is empty). `readData` is the
oracle for one `arrayBuffer()` call; the first failure rejects the whole
batch with that error. -/
def serializeAttachments (readData : PendingAttachment → Except String (List Nat)) :
    List PendingAttachment → Except String (List SerializedAttachmentPayload)
  | [] => Except.ok []
  | a :: rest =>
    match readData a with
    | Except.error e => Except.error e
    | Except.ok bytes =>
      match serializeAttachments readData rest with
      | Except.error e => Except.error e
      | Except.ok tail =>
        Except.ok (⟨a.file.name,
          (if a.file.mimeType = "" then "application/octet-stream" else a.file.mimeType),
          a.file.size, bytes⟩ :: tail)

/-- The attachment-record update applied when `sendMessage` responds with
saved attachment info: entry `i` of the message's attachment list receives
`savedPath` / `relativePath` from response entry `i` when present. -/
def applySaved (saved : List SavedAttachmentInfo) (atts : List MessageAttachment) :
    List MessageAttachment :=
  atts.mapIdx fun i a =>
    match saved[i]? with
    | some s => { a with savedPath := some s.savedPath, relativePath := some s.relativePath }
    | none => a

/-- `handleSendMessage` from `Chat.tsx`. `readData` is the
`File.arrayBuffer` oracle; `send` is the `window.electron.chat.sendMessage`
IPC oracle (`Except.error` models a thrown/rejected call). `now` models
`Date.now()` (the source's second `Date.now() + 1` id for the synthetic
error message is modelled as `now + 1`). Returns the new state and the
number of `chat.sendMessage` requests issued during the call. -/
def handleSendMessage (readData : PendingAttachment → Except String (List Nat))
    (send : SendMessagePayload → Except String SendMessageResponse)
    (now : Nat) (st : ChatState) : ChatState × Nat :=
  let trimmedMessage := jsTrim st.inputValue
  let hasSendableContent :=
    decide (0 < trimmedMessage.length) || decide (0 < st.pendingAttachments.length)
  if !hasSendableContent || st.isLoading then (st, 0)
  else
    let attachmentsToSend := st.pendingAttachments
    let messageAttachments := attachmentsToSend.map fun a =>
      (⟨a.file.name, a.file.size,
        (if a.file.mimeType = "" then "application/octet-stream" else a.file.mimeType),
        (if a.previewIsBlobUrl then none else a.previewUrl),
        a.isImage, none, none⟩ : MessageAttachment)
    let userMessage : Message :=
      ⟨toString now, Role.user, trimmedMessage, now,
       if 0 < messageAttachments.length then some messageAttachments else none⟩
    let st1 : ChatState :=
      { st with pendingAttachments := [], attachmentError := none,
                messages := st.messages ++ [userMessage], inputValue := "",
                isLoading := true }
    match serializeAttachments readData attachmentsToSend with
    | Except.error e =>
      ({ st1 with
          messages := st1.messages ++
            [⟨toString (now + 1), Role.assistant,
              "Error preparing attachments: " ++ e, now, none⟩],
          isLoading := false }, 0)
    | Except.ok payloads =>
      let payload : SendMessagePayload :=
        ⟨trimmedMessage, if 0 < payloads.length then some payloads else none⟩
      match send payload with
      | Except.error e =>
        ({ st1 with
            messages := st1.messages ++
              [⟨toString (now + 1), Role.assistant, "Error: " ++ e, now, none⟩],
            isLoading := false }, 1)
      | Except.ok resp =>
        if !resp.success && jsStrTruthy resp.error then
          ({ st1 with
              messages := st1.messages ++
                [⟨toString (now + 1), Role.assistant,
                  "Error: " ++ resp.error.getD "", now, none⟩],
              isLoading := false }, 1)
        else if 0 < (resp.attachments.getD []).length then
          ({ st1 with
              messages := st1.messages.map fun m =>
                if m.id = userMessage.id ∧ 0 < (m.attachments.getD []).length then
                  { m with attachments :=
                      m.attachments.map (applySaved (resp.attachments.getD [])) }
                else m }, 1)
        else (st1, 1)

/-- An exchange oracle for which every code exchange succeeds with
`freshTokens`. -/
def okExchange : String → String → Option OAuthTokens :=
  fun _ _ => some freshTokens

/-- Substring test used to state what a user-facing message names:
`sub` occurs in `s` exactly when splitting `s` on `sub` yields at least two
pieces (for nonempty `sub`). -/
def containsStr (s sub : String) : Bool :=
  occursIn sub.data s.data

/-- Example chat message. -/
def msgEx : Message := ⟨"m1", Role.user, "hello", 0, none⟩

/-- Second example chat message. -/
def msgEx2 : Message := ⟨"m2", Role.assistant, "world", 1500, none⟩

/-- Example attachment file within any size limit used in the theorems. -/
def attFileEx : FileDesc := ⟨"notes.txt", 10, "text/plain"⟩

/-- Example pending attachment wrapping `attFileEx`. -/
def attEx : PendingAttachment := ⟨attFileEx, none, false, false⟩

/-- Example chat state: empty input, one pending attachment, no turn
streaming. -/
def chatStateEx : ChatState := ⟨"", [attEx], none, [], false⟩

/-- An `arrayBuffer` oracle for which every attachment read fails. -/
def failingRead : PendingAttachment → Except String (List Nat) :=
  fun _ => Except.error "read failed"

/-- An `arrayBuffer` oracle for which every attachment read succeeds. -/
def okRead : PendingAttachment → Except String (List Nat) :=
  fun _ => Except.ok [104, 105]

/-- A `sendMessage` IPC oracle that accepts the turn with no saved
attachment info. -/
def okSend : SendMessagePayload → Except String SendMessageResponse :=
  fun _ => Except.ok ⟨true, none, none⟩

/-- Example oversized file (2 MB, against the 1 MiB limit used in the C5
theorems). -/
def bigFileA : FileDesc := ⟨"a.bin", 2000000, ""⟩

/-- Second example oversized file (3 MB). -/
def bigFileB : FileDesc := ⟨"b.bin", 3000000, ""⟩

/-- Example file within the 1 MiB limit used in the C5 theorems. -/
def smallFileC : FileDesc := ⟨"c.txt", 10, "text/plain"⟩

/-- Claim C1: for every stored OAuth token pair, if `getValidAccessToken`
triggers a refresh and that refresh attempt fails, the previously stored
pair is left unchanged in the config store; the operation reports failure by
returning null and never clears or partially updates the stored
credentials. -/
theorem claim_C1_failed_refresh_preserves_stored_pair
    (refresh : String → Option OAuthTokens) (now : Nat) (cfg : AppConfig)
    (tokens : OAuthTokens) (hstored : cfg.oauthTokens = some tokens)
    (hexpired : isTokenExpired now tokens = true)
    (hfail : refresh tokens.refresh = none) :
    getValidAccessToken refresh now cfg = ⟨none, cfg, true⟩ := by
  simp [getValidAccessToken, getOAuthTokens, hstored, hexpired, hfail]

/-- Witness for C1: a concrete expired pair with a failing refresh. -/
theorem claim_C1_witness :
    staleCfg.oauthTokens = some staleTokens ∧
    isTokenExpired 1000 staleTokens = true ∧
    failingRefresh staleTokens.refresh = none ∧
    getValidAccessToken failingRefresh 1000 staleCfg = ⟨none, staleCfg, true⟩ :=
  ⟨rfl, by decide, rfl,
   claim_C1_failed_refresh_preserves_stored_pair failingRefresh 1000 staleCfg
     staleTokens rfl (by decide) rfl⟩

/-- Counterexample to claim C2 as stated: for the stored pair `staleTokens`
(whose refresh attempt fails), the `getValidAccessToken` call made at the
failed attempt — and hence also a call made immediately before or after it
within the refresh window — returns null, not the stale access token, so the
two calls do not "return the same stale access token". -/
theorem claim_C2_counterexample :
    (getValidAccessToken failingRefresh 1000 staleCfg).token = none ∧
    (getValidAccessToken failingRefresh 1000 staleCfg).token ≠
      some staleTokens.access := by
  decide

/-- Claim C2 as amended: while every refresh attempt fails, repeated
`getValidAccessToken` calls leave the stored pair byte-identical and return
identical results — the stale access token while outside the 5-minute
refresh window, and null (rather than the stale token) once a refresh is
attempted and fails. -/
theorem claim_C2_amended_identical_results_and_state
    (refresh : String → Option OAuthTokens) (now : Nat) (cfg : AppConfig)
    (tokens : OAuthTokens) (hstored : cfg.oauthTokens = some tokens)
    (hfail : refresh tokens.refresh = none) :
    (getValidAccessToken refresh now cfg).config = cfg ∧
    getValidAccessToken refresh now
        (getValidAccessToken refresh now cfg).config =
      getValidAccessToken refresh now cfg ∧
    (isTokenExpired now tokens = true →
      (getValidAccessToken refresh now cfg).token = none) := by
  by_cases hexp : isTokenExpired now tokens = true
  · simp [getValidAccessToken, getOAuthTokens, hstored, hexp, hfail]
  · simp [getValidAccessToken, getOAuthTokens, hstored, hexp, hfail]

/-- Witness for the amended C2: the concrete stale pair under a failing
refresh oracle. -/
theorem claim_C2_witness :
    (getValidAccessToken failingRefresh 1000 staleCfg).config = staleCfg ∧
    getValidAccessToken failingRefresh 1000
        (getValidAccessToken failingRefresh 1000 staleCfg).config =
      getValidAccessToken failingRefresh 1000 staleCfg ∧
    (isTokenExpired 1000 staleTokens = true →
      (getValidAccessToken failingRefresh 1000 staleCfg).token = none) :=
  claim_C2_amended_identical_results_and_state failingRefresh 1000 staleCfg
    staleTokens rfl rfl

/-- Claim C7: `getValidAccessToken` returns the stored access token without
attempting any refresh exactly when the stored expiry is at least 5 minutes
in the future; it attempts a refresh exactly when
`expires < now + 5 minutes`; and it returns null when no credential is
stored. -/
theorem claim_C7_refresh_window_boundary
    (refresh : String → Option OAuthTokens) (now : Nat) (cfg : AppConfig) :
    (cfg.oauthTokens = none →
      getValidAccessToken refresh now cfg = ⟨none, cfg, false⟩) ∧
    ∀ tokens, cfg.oauthTokens = some tokens →
      ((getValidAccessToken refresh now cfg).refreshAttempted = true ↔
        tokens.expires < now + 5 * 60 * 1000) ∧
      (getValidAccessToken refresh now cfg = ⟨some tokens.access, cfg, false⟩ ↔
        now + 5 * 60 * 1000 ≤ tokens.expires) := by
  refine ⟨fun h => by simp [getValidAccessToken, getOAuthTokens, h],
    fun tokens h => ?_⟩
  by_cases hexp : tokens.expires < now + 5 * 60 * 1000
  · cases hr : refresh tokens.refresh with
    | none =>
      simp [getValidAccessToken, getOAuthTokens, h, isTokenExpired, hexp, hr]
    | some newTokens =>
      simp [getValidAccessToken, getOAuthTokens, h, isTokenExpired, hexp, hr]
  · simp [getValidAccessToken, getOAuthTokens, h, isTokenExpired, hexp]
    omega

/-- Witness for C7: a concrete fresh pair is returned unchanged with no
refresh attempted, and a concrete expired pair triggers a refresh attempt. -/
theorem claim_C7_witness :
    getValidAccessToken failingRefresh 1000 freshCfg =
      ⟨some freshTokens.access, freshCfg, false⟩ ∧
    (getValidAccessToken failingRefresh 1000 staleCfg).refreshAttempted = true :=
  ⟨(((claim_C7_refresh_window_boundary failingRefresh 1000 freshCfg).2
      freshTokens rfl).2).mpr (by decide),
   (((claim_C7_refresh_window_boundary failingRefresh 1000 staleCfg).2
      staleTokens rfl).1).mpr (by decide)⟩

/-- Counterexample to claim C10 as stated: with the stored pair
`staleTokens` (expiry 0), `oauth:get-status` reports `authenticated: true`
but `expiresAt` is null rather than the stored expiry, because the source
computes `tokens?.expires || null` and `0` is falsy in JavaScript. -/
theorem claim_C10_counterexample :
    (oauthGetStatus staleCfg).authenticated = true ∧
    (oauthGetStatus staleCfg).expiresAt ≠ some staleTokens.expires := by
  decide

/-- Claim C10 as amended: `oauth:get-status` reports `authenticated: true`
exactly when an OAuth token pair is stored — with no reference to the
current time, so an already-expired pair is still reported as
authenticated — and `expiresAt` equals the stored expiry when tokens exist
and that expiry is nonzero; it is null when no tokens are stored, and also
null for a stored expiry of exactly 0 (JavaScript `|| null` on a falsy
number). -/
theorem claim_C10_amended_status (cfg : AppConfig) :
    ((oauthGetStatus cfg).authenticated = true ↔ cfg.oauthTokens.isSome = true) ∧
    (cfg.oauthTokens = none → (oauthGetStatus cfg).expiresAt = none) ∧
    ∀ tokens, cfg.oauthTokens = some tokens →
      (tokens.expires ≠ 0 →
        (oauthGetStatus cfg).expiresAt = some tokens.expires) ∧
      (tokens.expires = 0 → (oauthGetStatus cfg).expiresAt = none) := by
  refine ⟨?_, fun h => by simp [oauthGetStatus, getOAuthTokens, h],
    fun tokens h => ⟨fun hz => ?_, fun hz => ?_⟩⟩
  · cases hc : cfg.oauthTokens with
    | none => simp [oauthGetStatus, getOAuthTokens, hc]
    | some tokens => simp [oauthGetStatus, getOAuthTokens, hc]
  · simp [oauthGetStatus, getOAuthTokens, h, jsNumOrNull, hz]
  · simp [oauthGetStatus, getOAuthTokens, h, jsNumOrNull, hz]

/-- Witness for the amended C10: the fresh pair's nonzero expiry is
reported verbatim. -/
theorem claim_C10_witness :
    (oauthGetStatus freshCfg).expiresAt = some freshTokens.expires :=
  (((claim_C10_amended_status freshCfg).2.2 freshTokens rfl).1) (by decide)

/-- Counterexample to claim C6 as stated: with an active flow whose verifier
is `"verifier-1"`, a `oauth:complete-login` call whose code exchange is
rejected by the token endpoint reports failure but leaves
`currentPKCEVerifier` set — the verifier is not reset to null on failure of
the code exchange. -/
theorem claim_C6_counterexample :
    (completeLoginHandler failingExchange failingCreateKey "auth-code" false
        flowStateEx).2 =
      CompleteLoginResult.failure
        "Failed to exchange authorization code for tokens" ∧
    (completeLoginHandler failingExchange failingCreateKey "auth-code" false
        flowStateEx).1.currentPKCEVerifier = some "verifier-1" := by
  decide

/-- Claim C6 as amended: the PKCE verifier is held only in process memory;
it is reset to null on successful completion of the login (both the OAuth
and the create-api-key variants) and on `oauth:cancel`, but after a failed
code exchange it is retained unchanged (the flow stays active, so the user
can retry the code); it is never written to the persisted config — the only
config write any handler performs is storing the token record returned by
the token endpoint. -/
theorem claim_C6_amended_verifier_lifecycle
    (exchange : String → String → Option OAuthTokens)
    (createKeyOracle : String → Option String) (code : String)
    (createKey : Bool) (st : OAuthFlowState) (mode : AuthMode)
    (pkce : PKCEChallenge) :
    ((cancelHandler st).currentPKCEVerifier = none ∧
      (cancelHandler st).config = st.config) ∧
    (startLoginHandler mode pkce st).1.config = st.config ∧
    (∀ v, st.currentPKCEVerifier = some v → exchange code v = none →
      completeLoginHandler exchange createKeyOracle code createKey st =
        (st, CompleteLoginResult.failure
          "Failed to exchange authorization code for tokens")) ∧
    (((completeLoginHandler exchange createKeyOracle code createKey st).2 =
        CompleteLoginResult.successOAuth ∨
      (∃ k, (completeLoginHandler exchange createKeyOracle code createKey st).2 =
        CompleteLoginResult.successApiKey k)) →
      (completeLoginHandler exchange createKeyOracle code createKey
        st).1.currentPKCEVerifier = none) ∧
    ((completeLoginHandler exchange createKeyOracle code createKey
        st).1.config = st.config ∨
      ∃ v tokens, st.currentPKCEVerifier = some v ∧
        exchange code v = some tokens ∧
        (completeLoginHandler exchange createKeyOracle code createKey
          st).1.config = saveOAuthTokens tokens st.config) := by
  refine ⟨⟨rfl, rfl⟩, rfl,
    fun v hv hx => by simp [completeLoginHandler, hv, hx], ?_, ?_⟩
  · cases hv : st.currentPKCEVerifier with
    | none => simp [completeLoginHandler, hv]
    | some v =>
      cases hx : exchange code v with
      | none => simp [completeLoginHandler, hv, hx]
      | some tokens =>
        cases createKey with
        | false => simp [completeLoginHandler, hv, hx]
        | true =>
          cases hck : createKeyOracle tokens.access with
          | none => simp [completeLoginHandler, hv, hx, hck]
          | some k => simp [completeLoginHandler, hv, hx, hck]
  · cases hv : st.currentPKCEVerifier with
    | none => exact Or.inl (by simp [completeLoginHandler, hv])
    | some v =>
      cases hx : exchange code v with
      | none => exact Or.inl (by simp [completeLoginHandler, hv, hx])
      | some tokens =>
        cases createKey with
        | false =>
          exact Or.inr ⟨v, tokens, rfl, hx, by simp [completeLoginHandler, hv, hx]⟩
        | true =>
          cases hck : createKeyOracle tokens.access with
          | none => exact Or.inl (by simp [completeLoginHandler, hv, hx, hck])
          | some k => exact Or.inl (by simp [completeLoginHandler, hv, hx, hck])

/-- Witness for the amended C6: on a concrete successful OAuth completion
the verifier is cleared; a concrete cancel clears it; and a concrete failed
exchange leaves the flow state untouched. -/
theorem claim_C6_witness :
    (completeLoginHandler okExchange failingCreateKey "auth-code" false
        flowStateEx).1.currentPKCEVerifier = none ∧
    (cancelHandler flowStateEx).currentPKCEVerifier = none ∧
    completeLoginHandler failingExchange failingCreateKey "auth-code" false
        flowStateEx =
      (flowStateEx, CompleteLoginResult.failure
        "Failed to exchange authorization code for tokens") :=
  have h := claim_C6_amended_verifier_lifecycle okExchange failingCreateKey
    "auth-code" false flowStateEx AuthMode.max ⟨"chal", "ver"⟩
  have h2 := claim_C6_amended_verifier_lifecycle failingExchange
    failingCreateKey "auth-code" false flowStateEx AuthMode.max ⟨"chal", "ver"⟩
  ⟨h.2.2.2.1 (Or.inl (by decide)), h.1.1, h2.2.2.1 "verifier-1" rfl rfl⟩

/-- Counterexample to claim C8 as stated: with `ANTHROPIC_API_KEY` present
in the environment, two sequential `config:set-api-key` calls — the second
passing null — still yield a final status of `configured: true` with source
`'env'`, because the environment override always wins in status
reporting. -/
theorem claim_C8_counterexample :
    ((setApiKeyHandler envWithKey none
        (setApiKeyHandler envWithKey (some "sk-first-key") emptyCfg).1).2).configured
      = true ∧
    ((setApiKeyHandler envWithKey none
        (setApiKeyHandler envWithKey (some "sk-first-key") emptyCfg).1).2).source
      = some KeySource.fromEnv := by
  decide

/-- Claim C8 as amended: when `ANTHROPIC_API_KEY` is not set in the
environment, two sequential `config:set-api-key` calls where the second
passes null leave a final status of `configured: false`, `source: null`
(and no `lastFour`). -/
theorem claim_C8_amended_clear_api_key (env : ProcessEnv) (cfg : AppConfig)
    (firstKey : Option String) (henv : env.anthropicApiKey = none) :
    (setApiKeyHandler env none (setApiKeyHandler env firstKey cfg).1).2 =
      ⟨false, none, none⟩ := by
  simp [setApiKeyHandler, setApiKey, getApiKeyStatus, normalizeApiKeyArg, henv]

/-- Witness for the amended C8: a concrete empty environment, storing then
clearing a key. -/
theorem claim_C8_witness :
    (setApiKeyHandler emptyEnv none
        (setApiKeyHandler emptyEnv (some "sk-abc") emptyCfg).1).2 =
      ⟨false, none, none⟩ :=
  claim_C8_amended_clear_api_key emptyEnv emptyCfg (some "sk-abc") rfl

/-- A string all of whose characters are form-safe is unchanged by form
encoding (character-list version). -/
theorem formEncodeList_of_safe (l : List Char)
    (h : ∀ c ∈ l, formSafeChar c = true) :
    formEncodeList l = String.mk l := by
  induction l with
  | nil => rfl
  | cons c cs ih =>
    have hc : formSafeChar c = true := h c (by simp)
    have ihs := ih (fun x hx => h x (by simp [hx]))
    simp [formEncodeList, formEncodeChar, hc, ihs]
    rfl

/-- A string all of whose characters are form-safe is unchanged by form
encoding. -/
theorem formEncode_of_safe (s : String)
    (h : ∀ c ∈ s.data, formSafeChar c = true) : formEncode s = s := by
  unfold formEncode
  rw [formEncodeList_of_safe s.data h]

/-- Serializing a parameter list with one extra final pair appends
`&k=v` (encoded) to the serialization of the rest. -/
theorem serializeQuery_append_single (l : List (String × String))
    (k v : String) (hl : l ≠ []) :
    serializeQuery (l ++ [(k, v)]) =
      serializeQuery l ++ "&" ++ (formEncode k ++ "=" ++ formEncode v) := by
  induction l with
  | nil => exact absurd rfl hl
  | cons p rest ih =>
    cases rest with
    | nil =>
      cases p with
      | mk pk pv => simp [serializeQuery, String.append_assoc]
    | cons q rest' =>
      cases p with
      | mk pk pv =>
        have ih' := ih (by simp)
        calc serializeQuery ((pk, pv) :: (q :: rest') ++ [(k, v)])
            = formEncode pk ++ "=" ++ formEncode pv ++ "&" ++
                serializeQuery ((q :: rest') ++ [(k, v)]) := by
              simp [serializeQuery]
          _ = serializeQuery ((pk, pv) :: q :: rest') ++ "&" ++
                (formEncode k ++ "=" ++ formEncode v) := by
              rw [ih']; simp [serializeQuery, String.append_assoc]

/-- Claim C9: for every generated PKCE pair and every auth mode, the
authorization URL returned by `getAuthorizationUrl` carries the PKCE
verifier verbatim as the value of its `state` query parameter — alongside
the challenge with `code_challenge_method=S256` — so the raw verifier is
embedded in the URL opened in the external browser. The hypothesis that
every verifier character is form-safe holds for all generated verifiers
(base64url strings); under it the serialized URL literally ends in
`&state=` followed by the verifier. -/
theorem claim_C9_state_param_carries_verifier (mode : AuthMode)
    (pkce : PKCEChallenge)
    (hsafe : ∀ c ∈ pkce.verifier.data, formSafeChar c = true) :
    (authorizationParams pkce).lookup "state" = some pkce.verifier ∧
    (authorizationParams pkce).lookup "code_challenge" = some pkce.challenge ∧
    (authorizationParams pkce).lookup "code_challenge_method" = some "S256" ∧
    ∃ p, getAuthorizationUrl mode pkce = p ++ "&state=" ++ pkce.verifier := by
  refine ⟨rfl, rfl, rfl, ?_⟩
  have hsplit : authorizationParams pkce =
      [("code", "true"), ("client_id", CLIENT_ID), ("response_type", "code"),
       ("redirect_uri", REDIRECT_URI), ("scope", SCOPES),
       ("code_challenge", pkce.challenge),
       ("code_challenge_method", "S256")] ++ [("state", pkce.verifier)] := rfl
  have hq := serializeQuery_append_single
    [("code", "true"), ("client_id", CLIENT_ID), ("response_type", "code"),
     ("redirect_uri", REDIRECT_URI), ("scope", SCOPES),
     ("code_challenge", pkce.challenge), ("code_challenge_method", "S256")]
    "state" pkce.verifier (by simp)
  have hstate : formEncode "state" = "state" := by decide
  have hv : formEncode pkce.verifier = pkce.verifier :=
    formEncode_of_safe pkce.verifier hsafe
  refine ⟨(match mode with
    | AuthMode.max => AUTHORIZATION_ENDPOINT_MAX
    | AuthMode.console => AUTHORIZATION_ENDPOINT_CONSOLE) ++ "?" ++
      serializeQuery
        [("code", "true"), ("client_id", CLIENT_ID), ("response_type", "code"),
         ("redirect_uri", REDIRECT_URI), ("scope", SCOPES),
         ("code_challenge", pkce.challenge),
         ("code_challenge_method", "S256")], ?_⟩
  have hmerge : ∀ w : String, ("&" : String) ++ ("state=" ++ w) = "&state=" ++ w :=
    fun w => by simp [← String.append_assoc]
  unfold getAuthorizationUrl
  rw [hsplit, hq, hstate, hv]
  cases mode <;> simp [String.append_assoc, hmerge]

/-- Witness for C9: a concrete PKCE pair with a base64url-style verifier in
`max` mode. -/
theorem claim_C9_witness :
    (authorizationParams ⟨"chal-A", "ver_123-xyz"⟩).lookup "state" =
      some "ver_123-xyz" ∧
    (authorizationParams ⟨"chal-A", "ver_123-xyz"⟩).lookup "code_challenge" =
      some "chal-A" ∧
    (authorizationParams ⟨"chal-A", "ver_123-xyz"⟩).lookup
      "code_challenge_method" = some "S256" ∧
    ∃ p, getAuthorizationUrl AuthMode.max ⟨"chal-A", "ver_123-xyz"⟩ =
      p ++ "&state=" ++ "ver_123-xyz" :=
  claim_C9_state_param_carries_verifier AuthMode.max ⟨"chal-A", "ver_123-xyz"⟩
    (by decide)

/-- The accepted attachment always wraps the file it was built from. -/
theorem mkPendingAttachment_file (preview : FileDesc → Option (String × Bool))
    (f : FileDesc) : (mkPendingAttachment preview f).file = f := by
  unfold mkPendingAttachment
  dsimp only
  split
  · split <;> rfl
  · rfl

/-- The files accepted by the `processFiles` loop are exactly the selected
files within the size limit, in selection order. -/
theorem processFiles_accepted (maxBytes : Nat)
    (preview : FileDesc → Option (String × Bool)) (wd : Option String)
    (files : List FileDesc) :
    (processFiles maxBytes preview wd files).1 =
      (files.filter fun f => decide (f.size ≤ maxBytes)).map
        (mkPendingAttachment preview) := by
  induction files with
  | nil => rfl
  | cons f rest ih =>
    by_cases hf : maxBytes < f.size
    · have hle : ¬ f.size ≤ maxBytes := by omega
      simp [processFiles, hf, hle, List.filter_cons, ih]
    · have hle : f.size ≤ maxBytes := by omega
      simp [processFiles, hf, hle, List.filter_cons, ih]

/-- The rejection message produced by the `processFiles` loop is that of the
last oversized file in the selection, if any. -/
theorem processFiles_rejection (maxBytes : Nat)
    (preview : FileDesc → Option (String × Bool)) (wd : Option String)
    (files : List FileDesc) :
    (processFiles maxBytes preview wd files).2 =
      ((files.filter fun f => decide (maxBytes < f.size)).getLast?).map
        (rejectionMessageFor maxBytes wd) := by
  induction files with
  | nil => rfl
  | cons f rest ih =>
    by_cases hf : maxBytes < f.size
    · cases hfr : (rest.filter fun f => decide (maxBytes < f.size)) with
      | nil =>
        simp [processFiles, hf, List.filter_cons, hfr, ih]
      | cons g gs =>
        cases hgl : (g :: gs).getLast? with
        | none => simp at hgl
        | some x =>
          simp [processFiles, hf, List.filter_cons, hfr, ih,
            List.getLast?_cons_cons, hgl]
    · simp [processFiles, hf, List.filter_cons, ih]

/-- Counterexample to claim C5 as stated: selecting two oversized files
(`a.bin`, `b.bin`, both above a 1 MiB limit) produces a single rejection
message naming only the last oversized file — no produced message names
`a.bin`, so it is not the case that every oversized file gets a rejection
message naming it. -/
theorem claim_C5_counterexample :
    1048576 < bigFileA.size ∧
    (handleFilesSelected 1048576 noPreview none [bigFileA, bigFileB] []
        none).2 = some (rejectionMessageFor 1048576 none bigFileB) ∧
    containsStr (rejectionMessageFor 1048576 none bigFileB) "a.bin" = false := by
  decide

/-- Claim C5 as amended: a selected file whose size exceeds
`MAX_ATTACHMENT_BYTES` is never added to the pending attachment list (every
pending attachment either predates the selection or wraps an in-limit
selected file); every selected file at or below the limit is accepted; and
when at least one file is oversized, a single rejection message is produced
naming the last oversized file of the selection together with the
megabyte limit and the workspace-directory redirect (the text built by
`rejectionMessageFor`). -/
theorem claim_C5_amended_attachment_size_gate (maxBytes : Nat)
    (preview : FileDesc → Option (String × Bool)) (wd : Option String)
    (files : List FileDesc) (pending : List PendingAttachment)
    (attachmentError : Option String) :
    (∀ pa, pa ∈ (handleFilesSelected maxBytes preview wd files pending
        attachmentError).1 →
      pa ∈ pending ∨ (pa.file ∈ files ∧ pa.file.size ≤ maxBytes)) ∧
    (∀ f, f ∈ files → f.size ≤ maxBytes →
      mkPendingAttachment preview f ∈
        (handleFilesSelected maxBytes preview wd files pending
          attachmentError).1) ∧
    (∀ g, (files.filter fun f => decide (maxBytes < f.size)).getLast? = some g →
      (handleFilesSelected maxBytes preview wd files pending
          attachmentError).2 = some (rejectionMessageFor maxBytes wd g)) := by
  refine ⟨fun pa hpa => ?_, fun f hf hsize => ?_, fun g hg => ?_⟩
  · by_cases hempty : files.length = 0
    · simp [handleFilesSelected, hempty] at hpa
      exact Or.inl hpa
    · simp [handleFilesSelected, hempty, processFiles_accepted] at hpa
      rcases hpa with hold | ⟨f, ⟨hfmem, hfsize⟩, hmk⟩
      · exact Or.inl hold
      · refine Or.inr ?_
        rw [← hmk, mkPendingAttachment_file]
        exact ⟨hfmem, hfsize⟩
  · have hempty : ¬ files.length = 0 := by
      cases files with
      | nil => cases hf
      | cons a l => simp
    simp [handleFilesSelected, hempty, processFiles_accepted]
    exact Or.inr ⟨f, ⟨hf, hsize⟩, rfl⟩
  · have hne : (files.filter fun f => decide (maxBytes < f.size)) ≠ [] := by
      intro hcon
      rw [hcon] at hg
      cases hg
    have hempty : ¬ files.length = 0 := by
      cases files with
      | nil => exact absurd rfl hne
      | cons a l => simp
    simp [handleFilesSelected, hempty, processFiles_rejection, hg]

/-- Witness for the amended C5: one oversized and one in-limit file against
a 1 MiB limit — the small file is accepted, the big file's message is
produced. -/
theorem claim_C5_witness :
    mkPendingAttachment noPreview smallFileC ∈
      (handleFilesSelected 1048576 noPreview none [bigFileB, smallFileC] []
        none).1 ∧
    (handleFilesSelected 1048576 noPreview none [bigFileB, smallFileC] []
        none).2 = some (rejectionMessageFor 1048576 none bigFileB) :=
  have h := claim_C5_amended_attachment_size_gate 1048576 noPreview none
    [bigFileB, smallFileC] [] none
  ⟨h.2.1 smallFileC (by decide) (by decide), h.2.2 bigFileB (by decide)⟩

/-- A string has length zero exactly when it is empty. -/
theorem string_length_zero_iff (s : String) : s.length = 0 ↔ s = "" := by
  cases s with
  | mk l =>
    cases l with
    | nil => simp
    | cons c cs => simp [String.length, String.ext_iff]

/-- Counterexample to claim C4 as stated: a submission with empty input text
but one pending attachment, while no turn is streaming, is not one of the
claim's no-op cases, yet when reading the attachment's bytes fails
(`File.arrayBuffer` rejects) no `chat.sendMessage` request is issued at
all — not exactly one. -/
theorem claim_C4_counterexample :
    jsTrim chatStateEx.inputValue = "" ∧
    chatStateEx.pendingAttachments ≠ [] ∧
    chatStateEx.isLoading = false ∧
    (handleSendMessage failingRead okSend 1000 chatStateEx).2 = 0 := by
  decide

/-- Claim C4 as amended: a submit-turn request is a no-op (state unchanged,
no `chat.sendMessage` issued) whenever the trimmed input is empty and the
pending attachment list is empty, or a turn is already streaming
(`isLoading`); otherwise, if serializing the pending attachments succeeds,
exactly one `sendMessage` request is issued, and if reading an attachment
fails, no request is issued and the submission ends with the loading flag
cleared (a synthetic error message is appended instead). -/
theorem claim_C4_amended_submit_gate
    (readData : PendingAttachment → Except String (List Nat))
    (send : SendMessagePayload → Except String SendMessageResponse)
    (now : Nat) (st : ChatState) :
    (((jsTrim st.inputValue = "" ∧ st.pendingAttachments = []) ∨
        st.isLoading = true) →
      handleSendMessage readData send now st = (st, 0)) ∧
    (¬ ((jsTrim st.inputValue = "" ∧ st.pendingAttachments = []) ∨
        st.isLoading = true) →
      ((∃ e, serializeAttachments readData st.pendingAttachments =
          Except.error e) →
        (handleSendMessage readData send now st).2 = 0 ∧
        (handleSendMessage readData send now st).1.isLoading = false) ∧
      (∀ ps, serializeAttachments readData st.pendingAttachments =
          Except.ok ps →
        (handleSendMessage readData send now st).2 = 1)) := by
  constructor
  · rintro (⟨htrim, hpend⟩ | hload)
    · simp [handleSendMessage, htrim, hpend]
    · simp [handleSendMessage, hload]
  · intro hgate
    have hload : st.isLoading = false := by
      rcases not_or.mp hgate with ⟨_, h2⟩
      simpa using h2
    have hne : ¬ (jsTrim st.inputValue = "" ∧ st.pendingAttachments = []) :=
      (not_or.mp hgate).1
    have hsend : (decide (0 < (jsTrim st.inputValue).length) ||
        decide (0 < st.pendingAttachments.length)) = true := by
      by_cases ht : jsTrim st.inputValue = ""
      · have hp : st.pendingAttachments ≠ [] := fun hp => hne ⟨ht, hp⟩
        simp [List.length_pos.mpr hp]
      · have hlen : 0 < (jsTrim st.inputValue).length := by
          rcases Nat.eq_zero_or_pos (jsTrim st.inputValue).length with h0 | hp
          · exact absurd ((string_length_zero_iff _).mp h0) ht
          · exact hp
        simp [hlen]
    constructor
    · rintro ⟨e, he⟩
      simp [handleSendMessage, hsend, hload, he]
    · intro ps hps
      simp only [handleSendMessage, hsend, hload, hps]
      cases hsr : send ⟨jsTrim st.inputValue,
          if 0 < ps.length then some ps else none⟩ with
      | error e => simp [hsr]
      | ok resp =>
        simp [hsr]
        split
        · rfl
        · split <;> rfl

/-- Witness for the amended C4: an empty submission with no attachments is a
no-op, and a concrete nonempty submission issues exactly one `sendMessage`
request. -/
theorem claim_C4_witness :
    handleSendMessage okRead okSend 1000 ⟨"", [], none, [msgEx], false⟩ =
      (⟨"", [], none, [msgEx], false⟩, 0) ∧
    (handleSendMessage okRead okSend 1000 chatStateEx).2 = 1 :=
  ⟨(claim_C4_amended_submit_gate okRead okSend 1000
      ⟨"", [], none, [msgEx], false⟩).1 (Or.inl ⟨rfl, rfl⟩),
   ((claim_C4_amended_submit_gate okRead okSend 1000 chatStateEx).2
      (by decide)).2 [⟨"notes.txt", "text/plain", 10, [104, 105]⟩] rfl⟩

/-- Counterexample to claim C3 as stated: two message-list mutations within
one debounce window whose second mutation leaves the message list empty
produce zero conversation-store writes, not exactly one — the effect skips
saving empty conversations. -/
theorem claim_C3_counterexample :
    autoSaveRun [(0, [msgEx]), (100, [])] = [] ∧ 100 < 0 + 2000 := by
  decide

/-- Claim C3 as amended: for every sequence of N ≥ 1 message-list mutations
in which each mutation arrives strictly within 2000 ms of the previous one
(so each mutation cancels the pending timer and restarts the 2-second
debounce), exactly one conversation-store write occurs — at 2000 ms after
the last mutation, containing the serialized final message list — provided
the final mutation's message list is nonempty (the source skips saving an
empty list). -/
theorem claim_C3_amended_debounced_single_write (head : Nat × List Message)
    (trace : List (Nat × List Message))
    (hchain : List.Chain' (fun a b => b.1 < a.1 + 2000) (head :: trace))
    (tl : Nat) (ml : List Message)
    (hlast : (head :: trace).getLast? = some (tl, ml)) (hne : ml ≠ []) :
    autoSaveRun (head :: trace) =
      [(tl + 2000, serializeMessagesForStorage ml)] := by
  induction trace generalizing head with
  | nil =>
    obtain ⟨t, m⟩ := head
    have h1 : t = tl ∧ m = ml := by
      simpa using hlast
    obtain ⟨rfl, rfl⟩ := h1
    simp [autoSaveRun, List.length_eq_zero, hne]
  | cons b rest ih =>
    obtain ⟨t, m⟩ := head
    obtain ⟨hb, hchain'⟩ := List.chain'_cons.mp hchain
    have hlast' : (b :: rest).getLast? = some (tl, ml) := by
      simpa [List.getLast?_cons_cons] using hlast
    have hfires : decide (t + 2000 ≤ b.1) = false := by
      simp only [decide_eq_false_iff_not]
      omega
    obtain ⟨tb, mb⟩ := b
    have ih' := ih (tb, mb) hchain' hlast'
    simp only [autoSaveRun, hfires] at ih' ⊢
    simpa using ih'

/-- Witness for the amended C3: two mutations 1000 ms apart produce exactly
one write, 2000 ms after the second mutation, containing the serialized
final list. -/
theorem claim_C3_witness :
    autoSaveRun [(0, [msgEx]), (1000, [msgEx, msgEx2])] =
      [(3000, serializeMessagesForStorage [msgEx, msgEx2])] :=
  claim_C3_amended_debounced_single_write (0, [msgEx])
    [(1000, [msgEx, msgEx2])] (by norm_num [List.chain'_cons]) 1000
    [msgEx, msgEx2] rfl (by decide)
